import Mathlib

/-!
Shallow embedding of the transaction authorizer (Go) and proofs about it.

Source files embedded:
- internal/core/domain/transacao.go   (entity, Valida, Aprovar, Rejeitar, ToEvento)
- internal/core/domain/errors.go      (sentinel error values)
- internal/repository/dynamodb/limite_repository.go
  (GetCliente, UpdateLimite, DebitarLimiteAtomica; TransacaoRepository.Save)
- internal/core/service/transacao_service.go (AutorizarTransacao and helpers)

Conventions: Go `int` is modelled as `Int`; DynamoDB numeric attributes are
exact, so `Int` is faithful.  The `float64` field `Valor` is modelled as `Rat`
(the exact value stored in the double); where IEEE-754 rounding itself matters
the exact dyadic rationals of the doubles involved are spelled out.  Timestamps
are `Nat` (Unix seconds).  Go `error` results are `Option GoErr` (`none` = nil).
Stateful collaborators are embedded as explicit state passing.
-/

namespace Authorizer

/-- Status constants from transacao.go. -/
def StatusAprovada : String := "APROVADA"

/-- Status REJEITADA from transacao.go. -/
def StatusRejeitada : String := "REJEITADA"

/-- Status PENDENTE from transacao.go. -/
def StatusPendente : String := "PENDENTE"

/-- Event type for approved transactions, transacao.go. -/
def EventoTransacaoAprovada : String := "TRANSACAO_APROVADA"

/-- Event type for rejected transactions, transacao.go. -/
def EventoTransacaoRejeitada : String := "TRANSACAO_REJEITADA"

/-- Go error values that flow through the core.  The sentinel errors come from
domain/errors.go and transacao.go; `generico` stands for any error built with
fmt.Errorf (a generic, non-sentinel error value carrying its message). -/
inductive GoErr where
  | valorNegativo
  | valorZero
  | clienteInvalido
  | limiteInsuficiente
  | clienteNaoEncontrado
  | transacaoDuplicada
  | generico (msg : String)
deriving Repr, DecidableEq

/-- domain.Transacao (transacao.go). -/
structure Transacao where
  ID : String
  ClienteID : String
  Valor : Rat
  Status : String
  Timestamp : Nat
  CorrelationID : String
deriving Repr, DecidableEq

/-- domain.TransacaoEvento (transacao.go). -/
structure TransacaoEvento where
  Evento : String
  TransacaoID : String
  ClienteID : String
  Valor : Rat
  Timestamp : Nat
  CorrelationID : String
deriving Repr, DecidableEq

/-- Transacao.Valida (transacao.go lines 74-90).  The Go body nests the sign
checks under `if t.Valor <= 0`, and falls through to the ClienteID check when
neither inner branch fires; `resto` is that common fall-through. -/
def Valida (t : Transacao) : Option GoErr :=
  let resto : Option GoErr :=
    if t.ClienteID = "" then some GoErr.clienteInvalido else none
  if t.Valor ≤ 0 then
    if t.Valor < 0 then some GoErr.valorNegativo
    else if t.Valor = 0 then some GoErr.valorZero
    else resto
  else resto

/-- Transacao.Aprovar (transacao.go line 93). -/
def Aprovar (t : Transacao) : Transacao := { t with Status := StatusAprovada }

/-- Transacao.Rejeitar (transacao.go line 98). -/
def Rejeitar (t : Transacao) : Transacao := { t with Status := StatusRejeitada }

/-- Transacao.ToEvento (transacao.go lines 103-122). -/
def ToEvento (t : Transacao) : TransacaoEvento :=
  let evento : String :=
    if t.Status = StatusAprovada then EventoTransacaoAprovada
    else if t.Status = StatusRejeitada then EventoTransacaoRejeitada
    else "TRANSACAO_PROCESSADA"
  { Evento := evento
    TransacaoID := t.ID
    ClienteID := t.ClienteID
    Valor := t.Valor
    Timestamp := t.Timestamp
    CorrelationID := t.CorrelationID }

/-- C7: Valida returns valorNegativo on a negative amount, valorZero on a zero
amount, clienteInvalido on a positive amount with an empty customer id, and
success (none) otherwise; the checks are applied in that order and Valida is a
pure function (no side effects, being a Lean function of the entity alone). -/
theorem valida_casos (t : Transacao) :
    (t.Valor < 0 → Valida t = some GoErr.valorNegativo) ∧
    (t.Valor = 0 → Valida t = some GoErr.valorZero) ∧
    (0 < t.Valor → t.ClienteID = "" → Valida t = some GoErr.clienteInvalido) ∧
    (0 < t.Valor → t.ClienteID ≠ "" → Valida t = none) := by
  refine ⟨fun h => ?_, fun h => ?_, fun h h2 => ?_, fun h h2 => ?_⟩ <;>
    simp only [Valida]
  · rw [if_pos h.le, if_pos h]
  · rw [if_pos h.le, if_neg (by simp [h]), if_pos h]
  · rw [if_neg (not_le.mpr h), if_pos h2]
  · rw [if_neg (not_le.mpr h), if_neg h2]

/-- Sample transaction with a negative amount (spec: amount = -5). -/
def tValorNegativo : Transacao := ⟨"t", "12345", -5, "PENDENTE", 0, "c"⟩

/-- Sample transaction with a zero amount. -/
def tValorZero : Transacao := ⟨"t", "12345", 0, "PENDENTE", 0, "c"⟩

/-- Sample transaction with a positive amount and an empty customer id. -/
def tClienteVazio : Transacao := ⟨"t", "", 10, "PENDENTE", 0, "c"⟩

/-- Sample transaction that passes validation. -/
def tValido : Transacao := ⟨"t", "12345", 10, "PENDENTE", 0, "c"⟩

/-- Witness for C7 at the spec's own inputs: amount -5, amount 0, amount 10
with empty customer id, and a fully valid transaction. -/
theorem valida_casos_witness :
    Valida tValorNegativo = some GoErr.valorNegativo ∧
    Valida tValorZero = some GoErr.valorZero ∧
    Valida tClienteVazio = some GoErr.clienteInvalido ∧
    Valida tValido = none :=
  ⟨(valida_casos _).1 (by norm_num [tValorNegativo]),
   (valida_casos _).2.1 rfl,
   (valida_casos _).2.2.1 (by norm_num [tClienteVazio]) rfl,
   (valida_casos _).2.2.2 (by norm_num [tValido]) (by decide)⟩

/-- C10: for a transaction whose status is neither APROVADA nor REJEITADA,
ToEvento falls back to the third event type TRANSACAO_PROCESSADA while copying
the transaction's id, customer id, amount, timestamp and correlation id. -/
theorem toEvento_fallback (t : Transacao)
    (h1 : t.Status ≠ StatusAprovada) (h2 : t.Status ≠ StatusRejeitada) :
    ToEvento t =
      { Evento := "TRANSACAO_PROCESSADA", TransacaoID := t.ID,
        ClienteID := t.ClienteID, Valor := t.Valor, Timestamp := t.Timestamp,
        CorrelationID := t.CorrelationID } := by
  simp [ToEvento, h1, h2]

/-- Sample still-pending transaction for the ToEvento fallback. -/
def tPendente : Transacao := ⟨"t1", "c1", 10, "PENDENTE", 5, "x"⟩

/-- Witness for C10 on a still-pending transaction. -/
theorem toEvento_fallback_witness :
    ToEvento tPendente = ⟨"TRANSACAO_PROCESSADA", "t1", "c1", 10, 5, "x"⟩ :=
  toEvento_fallback tPendente (by decide) (by decide)

/-- domain.Cliente (transacao.go lines 21-29) / ClienteItem
(limite_repository.go lines 22-30); monetary fields are integer centavos. -/
structure Cliente where
  id : String
  nome : String
  email : String
  limiteCredit : Int
  limiteAtual : Int
  createdAt : Nat
  updatedAt : Nat
deriving Repr, DecidableEq

/-- The DynamoDB clientes table, keyed by the id attribute. -/
abbrev Store := List (String × Cliente)

/-- Point read by key (DynamoDB GetItem on the id key). -/
def lookupCliente : Store → String → Option Cliente
  | [], _ => none
  | p :: resto, cid => if p.1 = cid then some p.2 else lookupCliente resto cid

/-- Keyed UpdateItem applied to the table: rewrites the item(s) stored under
the key with `f`, leaving every other item untouched. -/
def atualiza : Store → String → (Cliente → Cliente) → Store
  | [], _, _ => []
  | p :: resto, cid, f =>
      (if p.1 = cid then (p.1, f p.2) else p) :: atualiza resto cid f

theorem lookupCliente_atualiza (s : Store) (cid : String) (f : Cliente → Cliente) :
    lookupCliente (atualiza s cid f) cid = (lookupCliente s cid).map f := by
  induction s with
  | nil => rfl
  | cons p resto ih =>
    by_cases h : p.1 = cid
    · simp [atualiza, lookupCliente, h]
    · simp [atualiza, lookupCliente, h, ih]

theorem lookupCliente_atualiza_outro (s : Store) (cid cid2 : String)
    (f : Cliente → Cliente) (h : cid2 ≠ cid) :
    lookupCliente (atualiza s cid f) cid2 = lookupCliente s cid2 := by
  induction s with
  | nil => rfl
  | cons p resto ih =>
    by_cases hp : p.1 = cid
    · simp [atualiza, lookupCliente, hp, Ne.symm h, ih]
    · simp only [atualiza, if_neg hp, lookupCliente, ih]

/-- Result of GetCliente (limite_repository.go lines 40-65): the item, a
ErrClienteNaoEncontrado when the read finds no item, or a wrapped I/O failure
of the GetItem call itself. -/
inductive GetResult where
  | ok (c : Cliente)
  | naoEncontrado
  | falha (msg : String)
deriving Repr, DecidableEq

/-- GetCliente over the pure store model, where the consistent read itself
never io-fails. -/
def getCliente (s : Store) (cid : String) : GetResult :=
  match lookupCliente s cid with
  | some c => GetResult.ok c
  | none => GetResult.naoEncontrado

/-- The ConditionExpression of DebitarLimiteAtomica (limite_repository.go line
115): attribute_exists(id) AND limite_atual >= :valor AND
(limite_atual - :valor) >= :zero. -/
def condDebito (s : Store) (cid : String) (valor : Int) : Bool :=
  match lookupCliente s cid with
  | some c => decide (valor ≤ c.limiteAtual) && decide (0 ≤ c.limiteAtual - valor)
  | none => false

/-- The error-disambiguation branch of DebitarLimiteAtomica
(limite_repository.go lines 122-142), entered when the conditional write was
rejected: the follow-up GetCliente result is mapped to a domain error.  When
the read io-fails for a reason other than not-found the code assumes
limiteInsuficiente; when the returned item passes the amount check (the race
case) the code wraps the condition failure in a generic fmt.Errorf error. -/
def disambiguaFalha (g : GetResult) (valor : Int) (cid : String) : GoErr :=
  match g with
  | GetResult.naoEncontrado => GoErr.clienteNaoEncontrado
  | GetResult.falha _ => GoErr.limiteInsuficiente
  | GetResult.ok c =>
      if c.limiteAtual < valor then GoErr.limiteInsuficiente
      else GoErr.generico ("operação atômica falhou para cliente " ++ cid)

/-- DebitarLimiteAtomica (limite_repository.go lines 97-154) over the pure
store model.  `s` is the table state the conditional UpdateItem evaluates
against; `sread` is the state the follow-up GetCliente observes (equal to `s`
unless a concurrent writer slipped in between the two calls, the narrow race
the source comments on).  Returns the new table state and the Go error
(`none` = nil = success). -/
def DebitarLimiteAtomica (s sread : Store) (cid : String) (valor : Int)
    (now : Nat) : Store × Option GoErr :=
  if condDebito s cid valor then
    (atualiza s cid
      (fun c => { c with limiteAtual := c.limiteAtual - valor, updatedAt := now }),
     none)
  else
    (s, some (disambiguaFalha (getCliente sread cid) valor cid))

/-- UpdateLimite (limite_repository.go lines 68-93): SET limite_atual to the
given value, guarded only by attribute_exists(id); a condition failure maps to
ErrClienteNaoEncontrado. -/
def UpdateLimite (s : Store) (cid : String) (novoLimite : Int) (now : Nat) :
    Store × Option GoErr :=
  if (lookupCliente s cid).isSome then
    (atualiza s cid (fun c => { c with limiteAtual := novoLimite, updatedAt := now }),
     none)
  else
    (s, some GoErr.clienteNaoEncontrado)

theorem condDebito_iff (s : Store) (cid : String) (valor : Int) :
    condDebito s cid valor = true ↔
      ∃ c, lookupCliente s cid = some c ∧ valor ≤ c.limiteAtual := by
  unfold condDebito
  cases h : lookupCliente s cid with
  | none => simp
  | some c =>
    simp only [Bool.and_eq_true, decide_eq_true_eq, Int.sub_nonneg,
      Option.some.injEq]
    constructor
    · rintro ⟨h1, _⟩; exact ⟨c, rfl, h1⟩
    · rintro ⟨c', rfl, h1⟩; exact ⟨h1, h1⟩

/-- C1: the atomic debit succeeds iff a record for the customer exists whose
available balance is at least the amount; on success the stored balance becomes
exactly the old balance minus the amount; on rejection the table is unchanged. -/
theorem debitar_atomico (s sread : Store) (cid : String) (valor : Int) (now : Nat) :
    ((DebitarLimiteAtomica s sread cid valor now).2 = none ↔
      ∃ c, lookupCliente s cid = some c ∧ valor ≤ c.limiteAtual) ∧
    (∀ c, lookupCliente s cid = some c → valor ≤ c.limiteAtual →
      lookupCliente (DebitarLimiteAtomica s sread cid valor now).1 cid =
        some { c with limiteAtual := c.limiteAtual - valor, updatedAt := now }) ∧
    ((DebitarLimiteAtomica s sread cid valor now).2 ≠ none →
      (DebitarLimiteAtomica s sread cid valor now).1 = s) := by
  refine ⟨?_, ?_, ?_⟩
  · rw [← condDebito_iff]
    unfold DebitarLimiteAtomica
    by_cases h : condDebito s cid valor <;> simp [h]
  · intro c hc hle
    have hcond : condDebito s cid valor = true :=
      (condDebito_iff s cid valor).mpr ⟨c, hc, hle⟩
    unfold DebitarLimiteAtomica
    rw [if_pos hcond]
    simp [lookupCliente_atualiza, hc]
  · intro hne
    unfold DebitarLimiteAtomica at hne ⊢
    by_cases h : condDebito s cid valor
    · rw [if_pos h] at hne; simp at hne
    · rw [if_neg h]

/-- Sample cliente: credit ceiling 100 centavos, available balance 50. -/
def clienteA : Cliente := ⟨"A", "n", "e", 100, 50, 0, 0⟩

/-- Sample one-row table holding clienteA. -/
def storeA : Store := [("A", clienteA)]

/-- Witness for C1: debiting 30 from clienteA (balance 50) succeeds and leaves
balance 20. -/
theorem debitar_atomico_witness :
    (DebitarLimiteAtomica storeA storeA "A" 30 7).2 = none ∧
    lookupCliente (DebitarLimiteAtomica storeA storeA "A" 30 7).1 "A" =
      some { clienteA with limiteAtual := clienteA.limiteAtual - 30, updatedAt := 7 } :=
  ⟨(debitar_atomico storeA storeA "A" 30 7).1.mpr ⟨clienteA, rfl, by decide⟩,
   (debitar_atomico storeA storeA "A" 30 7).2.1 clienteA rfl (by decide)⟩

/-- Sample table where clienteA holds only 50 centavos (the write-time state). -/
def storePobre : Store := [("A", ⟨"A", "n", "e", 1000, 50, 0, 0⟩)]

/-- Sample table where the same customer holds 200 centavos (the state the
follow-up read observes after a racing credit). -/
def storeRico : Store := [("A", ⟨"A", "n", "e", 1000, 200, 0, 0⟩)]

/-- Counterexample for C4: a debit of 100 is rejected against balance 50, and
the follow-up read then sees balance 200, which passes the amount check; the
code returns the generic operação-atômica-falhou error, not limiteInsuficiente
as the claim states for this race case. -/
theorem debitar_race_counterexample :
    (DebitarLimiteAtomica storePobre storeRico "A" 100 0).2 =
      some (GoErr.generico "operação atômica falhou para cliente A") ∧
    (DebitarLimiteAtomica storePobre storeRico "A" 100 0).2 ≠
      some GoErr.limiteInsuficiente := by
  constructor <;> decide

/-- C4 amended: whenever the conditional debit write is rejected, the store
issues a follow-up read and returns clienteNaoEncontrado when the record is
absent, limiteInsuficiente when the record is present with balance below the
amount, and — in the narrow race where the record passes the amount check —
a generic operação-atômica-falhou error rather than limiteInsuficiente. -/
theorem debitar_disambiguacao (s sread : Store) (cid : String) (valor : Int)
    (now : Nat)
    (hrej : (DebitarLimiteAtomica s sread cid valor now).2 ≠ none) :
    (lookupCliente sread cid = none →
      (DebitarLimiteAtomica s sread cid valor now).2 =
        some GoErr.clienteNaoEncontrado) ∧
    (∀ c, lookupCliente sread cid = some c → c.limiteAtual < valor →
      (DebitarLimiteAtomica s sread cid valor now).2 =
        some GoErr.limiteInsuficiente) ∧
    (∀ c, lookupCliente sread cid = some c → valor ≤ c.limiteAtual →
      (DebitarLimiteAtomica s sread cid valor now).2 =
        some (GoErr.generico ("operação atômica falhou para cliente " ++ cid))) := by
  unfold DebitarLimiteAtomica at hrej ⊢
  by_cases hb : condDebito s cid valor
  · rw [if_pos hb] at hrej; simp at hrej
  · rw [if_neg hb]
    refine ⟨fun hn => ?_, fun c hc hlt => ?_, fun c hc hle => ?_⟩
    · simp [getCliente, hn, disambiguaFalha]
    · simp [getCliente, hc, disambiguaFalha, hlt]
    · simp [getCliente, hc, disambiguaFalha, not_lt.mpr hle]

/-- Witness for C4 amended at the race inputs of the counterexample: the
rejected write followed by a read seeing a sufficient balance yields the
generic error. -/
theorem debitar_disambiguacao_witness :
    (DebitarLimiteAtomica storePobre storeRico "A" 100 0).2 =
      some (GoErr.generico ("operação atômica falhou para cliente " ++ "A")) :=
  (debitar_disambiguacao storePobre storeRico "A" 100 0 (by decide)).2.2
    ⟨"A", "n", "e", 1000, 200, 0, 0⟩ rfl (by decide)

/-- Counterexample for C6: UpdateLimite guards only on existence, so setting
clienteA's limite_atual to -5 succeeds and leaves a stored balance below 0,
violating 0 ≤ available_balance ≤ credit_ceiling after a successful mutation. -/
theorem update_limite_counterexample :
    (UpdateLimite storeA "A" (-5) 1).2 = none ∧
    lookupCliente (UpdateLimite storeA "A" (-5) 1).1 "A" =
      some { clienteA with limiteAtual := -5, updatedAt := 1 } ∧
    ((-5 : Int) < 0) := by
  refine ⟨by decide, by decide, by decide⟩

/-- C6 amended: the atomic debit of a nonnegative amount from a record
satisfying 0 ≤ limite_atual ≤ limite_credito preserves that invariant; the
UpdateLimite path enforces no bounds at all (see the counterexample). -/
theorem debitar_preserva_invariante (s sread : Store) (cid : String)
    (valor : Int) (now : Nat) (c : Cliente)
    (hc : lookupCliente s cid = some c)
    (h0 : 0 ≤ c.limiteAtual) (h1 : c.limiteAtual ≤ c.limiteCredit)
    (hv : 0 ≤ valor)
    (hok : (DebitarLimiteAtomica s sread cid valor now).2 = none) :
    ∃ c', lookupCliente (DebitarLimiteAtomica s sread cid valor now).1 cid =
        some c' ∧ 0 ≤ c'.limiteAtual ∧ c'.limiteAtual ≤ c'.limiteCredit := by
  unfold DebitarLimiteAtomica at hok ⊢
  by_cases hb : condDebito s cid valor
  · rw [if_pos hb]
    have hle : valor ≤ c.limiteAtual := by
      rcases (condDebito_iff s cid valor).mp hb with ⟨c2, hc2, hle2⟩
      rw [hc] at hc2
      exact (Option.some.inj hc2) ▸ hle2
    refine ⟨{ c with limiteAtual := c.limiteAtual - valor, updatedAt := now },
      ?_, ?_, ?_⟩
    · simp [lookupCliente_atualiza, hc]
    · simpa [Int.sub_nonneg] using hle
    · simp only
      omega
  · rw [if_neg hb] at hok
    simp at hok

/-- Witness for C6 amended: clienteA satisfies the invariant (0 ≤ 50 ≤ 100)
and a successful debit of 30 leaves a record still satisfying it. -/
theorem debitar_preserva_invariante_witness :
    ∃ c', lookupCliente (DebitarLimiteAtomica storeA storeA "A" 30 7).1 "A" =
        some c' ∧ 0 ≤ c'.limiteAtual ∧ c'.limiteAtual ≤ c'.limiteCredit :=
  debitar_preserva_invariante storeA storeA "A" 30 7 clienteA rfl
    (by decide) (by decide) (by decide) (by decide)

/-- TransacaoItem (limite_repository.go lines 233-241): the log record Save
writes, carrying a TTL for expiry housekeeping. -/
structure TransacaoItem where
  ID : String
  ClienteID : String
  Valor : Rat
  Status : String
  Timestamp : Nat
  CorrelationID : String
  TTL : Nat
deriving Repr, DecidableEq

/-- The item Save builds from a transaction (Save lines 252-263): TTL is the
timestamp plus 90 days. -/
def toItem (t : Transacao) : TransacaoItem :=
  ⟨t.ID, t.ClienteID, t.Valor, t.Status, t.Timestamp, t.CorrelationID,
   t.Timestamp + 90 * 24 * 60 * 60⟩

/-- The transacoes table, as the list of items put into it. -/
abbrev LogStore := List TransacaoItem

/-- TransacaoRepository.Save (limite_repository.go lines 251-288): a
conditional PutItem guarded by attribute_not_exists(id).  When an item with
the same id is already present, the ConditionalCheckFailedException is mapped
to a generic fmt.Errorf error "transação <id> já existe"; the sentinel
domain.ErrTransacaoDuplicada is never produced by this code. -/
def transacaoSave (log : LogStore) (t : Transacao) : LogStore × Option GoErr :=
  if log.any (fun u => u.ID == t.ID) then
    (log, some (GoErr.generico ("transação " ++ t.ID ++ " já existe")))
  else
    (log ++ [toItem t], none)

/-- The collaborator interfaces of TransacaoService (domain/ports.go),
embedded as state-threading functions over an abstract collaborator state σ:
each call takes the current state and returns the next state plus the Go
result.  The observability collaborators (logger, tracer, metrics) are pure
sinks the service never branches on, and are not modelled. -/
structure Colaboradores (σ : Type) where
  debitarLimiteAtomica : σ → String → Int → σ × Option GoErr
  save : σ → Transacao → σ × Option GoErr
  publishTransacaoAprovada : σ → TransacaoEvento → σ × Option GoErr
  publishTransacaoRejeitada : σ → TransacaoEvento → σ × Option GoErr

/-- Go conversion int(x) of a float64 to int: truncation toward zero, over the
exact rational value of the double. -/
def goInt (x : Rat) : Int := Int.tdiv x.num (x.den : Int)

/-- The centavos conversion of processarLimite (transacao_service.go line 98):
valorCentavos := int(transacao.Valor * 100). -/
def valorCentavos (v : Rat) : Int := goInt (v * 100)

/-- processarLimite (transacao_service.go lines 93-124): converts the amount
to centavos and issues the atomic debit; the error branches only log and
count, then return the error unchanged. -/
def processarLimite {σ : Type} (cs : Colaboradores σ) (s : σ) (t : Transacao) :
    σ × Option GoErr :=
  cs.debitarLimiteAtomica s t.ClienteID (valorCentavos t.Valor)

/-- publicarEvento (transacao_service.go lines 189-207): builds the event and
publishes it; a publish failure is only logged and counted, never propagated. -/
def publicarEvento {σ : Type} (cs : Colaboradores σ) (s : σ) (t : Transacao) : σ :=
  (cs.publishTransacaoAprovada s (ToEvento t)).1

/-- publicarEventoRejeicao (transacao_service.go lines 209-222). -/
def publicarEventoRejeicao {σ : Type} (cs : Colaboradores σ) (s : σ)
    (t : Transacao) : σ :=
  (cs.publishTransacaoRejeitada s (ToEvento t)).1

/-- aprovarTransacao (transacao_service.go lines 126-159): marks the
transaction APROVADA and saves it; a save error is returned to the caller;
otherwise the approval event is dispatched (async in Go, sequenced after the
save here) and nil is returned. -/
def aprovarTransacao {σ : Type} (cs : Colaboradores σ) (s : σ) (t : Transacao) :
    σ × Transacao × Option GoErr :=
  let t2 := Aprovar t
  match cs.save s t2 with
  | (s2, some e) => (s2, t2, some e)
  | (s2, none) => (publicarEvento cs s2 t2, t2, none)

/-- rejeitarTransacao (transacao_service.go lines 161-187): marks the
transaction REJEITADA, saves it for audit (ignoring any save error),
dispatches the rejection event, and returns the rejection reason as the
call's error. -/
def rejeitarTransacao {σ : Type} (cs : Colaboradores σ) (s : σ) (t : Transacao)
    (motivo : GoErr) : σ × Transacao × Option GoErr :=
  let t2 := Rejeitar t
  let s2 := (cs.save s t2).1
  (publicarEventoRejeicao cs s2 t2, t2, some motivo)

/-- AutorizarTransacao (transacao_service.go lines 39-74): validate, debit
atomically, approve; every validation or debit error routes through
rejeitarTransacao with that error as the reason. -/
def AutorizarTransacao {σ : Type} (cs : Colaboradores σ) (s : σ)
    (t : Transacao) : σ × Transacao × Option GoErr :=
  match Valida t with
  | some e => rejeitarTransacao cs s t e
  | none =>
    match processarLimite cs s t with
    | (s2, some e) => rejeitarTransacao cs s2 t e
    | (s2, none) => aprovarTransacao cs s2 t

/-- C2: whenever AutorizarTransacao returns success (nil error), the atomic
debit it issued for the transaction succeeded. -/
theorem autorizar_sucesso_debitou {σ : Type} (cs : Colaboradores σ) (s : σ)
    (t : Transacao)
    (hok : (AutorizarTransacao cs s t).2.2 = none) :
    (cs.debitarLimiteAtomica s t.ClienteID (valorCentavos t.Valor)).2 = none := by
  unfold AutorizarTransacao processarLimite at hok
  cases hv : Valida t with
  | some e => rw [hv] at hok; simp [rejeitarTransacao] at hok
  | none =>
    rw [hv] at hok
    cases hd : cs.debitarLimiteAtomica s t.ClienteID (valorCentavos t.Valor) with
    | mk s2 r =>
      cases r with
      | some e => rw [hd] at hok; simp [rejeitarTransacao] at hok
      | none => rfl

/-- Collaborators over a trivial state in which every call succeeds. -/
def colabOk : Colaboradores Unit where
  debitarLimiteAtomica := fun _ _ _ => ((), none)
  save := fun _ _ => ((), none)
  publishTransacaoAprovada := fun _ _ => ((), none)
  publishTransacaoRejeitada := fun _ _ => ((), none)

/-- Witness for C2: a fully successful run, from which the theorem recovers
that the debit succeeded. -/
theorem autorizar_sucesso_debitou_witness :
    (colabOk.debitarLimiteAtomica () tValido.ClienteID
      (valorCentavos tValido.Valor)).2 = none :=
  autorizar_sucesso_debitou colabOk () tValido (by decide)

/-- Collaborators over the log table where the ledger debit always fails with
a generic store-unavailability error (neither limiteInsuficiente nor
clienteNaoEncontrado), while the log uses the real conditional Save. -/
def colabIndisponivel : Colaboradores LogStore where
  debitarLimiteAtomica := fun log _ _ =>
    (log, some (GoErr.generico "erro ao debitar limite do cliente: indisponível"))
  save := transacaoSave
  publishTransacaoAprovada := fun log _ => (log, none)
  publishTransacaoRejeitada := fun log _ => (log, none)

/-- Counterexample for C3: with the debit failing on store unavailability, the
Orchestrator marks the transaction REJEITADA and the rejected entity IS
appended to the Transaction Log, contradicting the claim that neither happens;
the error is surfaced to the caller. -/
theorem indisponibilidade_counterexample :
    (AutorizarTransacao colabIndisponivel [] tValido).2.1.Status = StatusRejeitada ∧
    (AutorizarTransacao colabIndisponivel [] tValido).1 =
      [toItem (Rejeitar tValido)] ∧
    (AutorizarTransacao colabIndisponivel [] tValido).2.2 =
      some (GoErr.generico "erro ao debitar limite do cliente: indisponível") := by
  refine ⟨by decide, by decide, by decide⟩

/-- C3 amended: when the debit fails with a store-unavailability error
(neither limiteInsuficiente nor clienteNaoEncontrado), the Orchestrator
surfaces that error to the caller, but it does mark the transaction REJEITADA
and does append the rejected entity to the Transaction Log via Save, exactly
as for a business rejection. -/
theorem autorizar_indisponibilidade {σ : Type} (cs : Colaboradores σ)
    (s s2 : σ) (t : Transacao) (e : GoErr)
    (hv : Valida t = none)
    (hd : cs.debitarLimiteAtomica s t.ClienteID (valorCentavos t.Valor) =
      (s2, some e))
    (he1 : e ≠ GoErr.limiteInsuficiente) (he2 : e ≠ GoErr.clienteNaoEncontrado) :
    (AutorizarTransacao cs s t).2.2 = some e ∧
    (AutorizarTransacao cs s t).2.1 = Rejeitar t ∧
    (AutorizarTransacao cs s t).1 =
      publicarEventoRejeicao cs (cs.save s2 (Rejeitar t)).1 (Rejeitar t) := by
  unfold AutorizarTransacao processarLimite
  rw [hv, hd]
  exact ⟨rfl, rfl, rfl⟩

/-- Witness for C3 amended: the store-unavailability run on an empty log. -/
theorem autorizar_indisponibilidade_witness :
    (AutorizarTransacao colabIndisponivel [] tValido).2.2 =
      some (GoErr.generico "erro ao debitar limite do cliente: indisponível") ∧
    (AutorizarTransacao colabIndisponivel [] tValido).2.1 = Rejeitar tValido :=
  ⟨(autorizar_indisponibilidade colabIndisponivel [] [] tValido _
      rfl rfl (by decide) (by decide)).1,
   (autorizar_indisponibilidade colabIndisponivel [] [] tValido _
      rfl rfl (by decide) (by decide)).2.1⟩

/-- C9: the publisher never influences the outcome: two collaborator records
that agree on the debit and save behavior yield the same terminal transaction
(the entity persisted to the log) and the same caller result, whatever their
publish behavior — including a publisher that always fails. -/
theorem autorizar_publicacao_independente {σ : Type} (c1 c2 : Colaboradores σ)
    (s : σ) (t : Transacao)
    (hd : c1.debitarLimiteAtomica = c2.debitarLimiteAtomica)
    (hs : c1.save = c2.save) :
    (AutorizarTransacao c1 s t).2 = (AutorizarTransacao c2 s t).2 := by
  unfold AutorizarTransacao processarLimite
  rw [hd]
  cases hv : Valida t with
  | some e => simp [rejeitarTransacao]
  | none =>
    cases hdeb : c2.debitarLimiteAtomica s t.ClienteID (valorCentavos t.Valor) with
    | mk s2 r =>
      cases r with
      | some e => simp [rejeitarTransacao]
      | none =>
        simp only [aprovarTransacao]
        rw [hs]
        cases hsv : c2.save s2 (Aprovar t) with
        | mk s3 rs => cases rs <;> simp

/-- Collaborators identical to colabOk except that both publishers always
fail. -/
def colabPublicaFalha : Colaboradores Unit where
  debitarLimiteAtomica := fun _ _ _ => ((), none)
  save := fun _ _ => ((), none)
  publishTransacaoAprovada := fun _ _ => ((), some (GoErr.generico "broker fora"))
  publishTransacaoRejeitada := fun _ _ => ((), some (GoErr.generico "broker fora"))

/-- Witness for C9: an always-failing publisher yields the same terminal
entity and result as an always-succeeding one. -/
theorem autorizar_publicacao_independente_witness :
    (AutorizarTransacao colabOk () tValido).2 =
      (AutorizarTransacao colabPublicaFalha () tValido).2 :=
  autorizar_publicacao_independente colabOk colabPublicaFalha () tValido rfl rfl

/-- Sample transaction whose id is already present in the sample log. -/
def tJaSalva : Transacao := ⟨"t1", "c1", 10, "PENDENTE", 0, "x"⟩

/-- Sample log already holding an item with id t1 (a prior approved attempt). -/
def logComT1 : LogStore := [toItem (Aprovar tJaSalva)]

/-- Collaborators over the log table where the debit succeeds and the log uses
the real conditional Save. -/
def colabDebitaOk : Colaboradores LogStore where
  debitarLimiteAtomica := fun log _ _ => (log, none)
  save := transacaoSave
  publishTransacaoAprovada := fun log _ => (log, none)
  publishTransacaoRejeitada := fun log _ => (log, none)

/-- C5 (evaluation at the failing input): with an item of the same id already
in the log, Save fails with the generic "transação t1 já existe" error — not
the sentinel transacaoDuplicada — and AutorizarTransacao surfaces it to the
caller as a failure even though the debit committed, instead of treating the
duplicate append as success. -/
theorem save_duplicada_bug :
    (transacaoSave logComT1 (Aprovar tJaSalva)).2 =
      some (GoErr.generico "transação t1 já existe") ∧
    GoErr.generico "transação t1 já existe" ≠ GoErr.transacaoDuplicada ∧
    (AutorizarTransacao colabDebitaOk logComT1 tJaSalva).2.2 =
      some (GoErr.generico "transação t1 já existe") := by
  refine ⟨by decide, by decide, by decide⟩

/-- The exact value of the IEEE-754 binary64 double nearest to 0.29: the
value a Go float64 amount of 0.29 actually holds (in reduced dyadic form). -/
def double029 : Rat := Rat.mk' 5224175567749775 (2 ^ 54) (by norm_num) (by norm_num)

/-- The exact value of the binary64 product double029 * 100 as Go computes it:
the true product rounded to the nearest double. -/
def double029vezes100 : Rat :=
  Rat.mk' 8162774324609023 (2 ^ 48) (by norm_num) (by norm_num)

/-- The exact rational product double029 * 100 in reduced form. -/
def produtoExato : Rat :=
  Rat.mk' 130604389193744375 (2 ^ 52) (by norm_num) (by norm_num)

theorem double029_eq : double029 = (5224175567749775 : Rat) / 2 ^ 54 := by
  rw [double029, Rat.mk'_eq_divInt, Rat.divInt_eq_div]; norm_num

theorem double029vezes100_eq :
    double029vezes100 = (8162774324609023 : Rat) / 2 ^ 48 := by
  rw [double029vezes100, Rat.mk'_eq_divInt, Rat.divInt_eq_div]; norm_num

theorem produtoExato_eq : produtoExato = (130604389193744375 : Rat) / 2 ^ 52 := by
  rw [produtoExato, Rat.mk'_eq_divInt, Rat.divInt_eq_div]; norm_num

theorem double029_vezes_100 : double029 * 100 = produtoExato := by
  rw [double029_eq, produtoExato_eq]; norm_num

/-- C8 (evaluation at the failing input): for request amount 0.29 the centavos
conversion int(Valor * 100) yields 28, not the exact 29 the claim requires.
The first two conjuncts certify the dyadic constants: each lies within half an
ulp of the value it rounds (ulp 2^-54 at 0.29, ulp 2^-48 near 29), so each is
the IEEE-754 round-to-nearest result for the literal and for the product; the
last conjuncts evaluate the source conversion on both the exact product and
the double product, each truncating toward zero to 28. -/
theorem valorCentavos_drift :
    |double029 - 29 / 100| ≤ 1 / 2 ^ 55 ∧
    |double029vezes100 - double029 * 100| ≤ 1 / 2 ^ 49 ∧
    valorCentavos double029 = 28 ∧
    goInt double029vezes100 = 28 ∧
    (28 : Int) ≠ 29 := by
  refine ⟨?_, ?_, ?_, by decide, by decide⟩
  · rw [double029_eq, abs_le]
    constructor <;> norm_num
  · rw [double029vezes100_eq, double029_vezes_100, produtoExato_eq, abs_le]
    constructor <;> norm_num
  · rw [valorCentavos, double029_vezes_100]
    decide

end Authorizer
